import Mathlib

/-!
Shallow embedding of the Taiwan market data normalization core of
`backend/portfolios/taiwan_stock_service.py` (class `TaiwanStockService`)
and the market-session classifier of
`backend/portfolios/stock_data_service.py` (`get_market_status`).

Python floats are modelled as exact rationals (`ℚ`); Python `round` is
round-half-to-even, modelled by `pyRound`; Python `int()` truncation toward
zero is `pyInt`.  Strings are Lean `String`s; `str.replace(c, '')` with a
single-character pattern and empty replacement drops every occurrence of
that character, modelled by filtering the character out of the string.
-/

namespace TaiwanStock

/-- Python `round`: round half to even (banker's rounding), on exact
rationals. -/
def pyRound (q : ℚ) : ℤ :=
  let f : ℤ := ⌊q⌋
  let frac : ℚ := q - f
  if frac < 1/2 then f
  else if 1/2 < frac then f + 1
  else if f % 2 = 0 then f else f + 1

/-- Python `int()` applied to a number: truncation toward zero. -/
def pyInt (q : ℚ) : ℤ :=
  if q < 0 then ⌈q⌉ else ⌊q⌋

/-- The tick band table `PRICE_TICKS` from the source: entries
`(min_price, max_price, tick)`; the unbounded upper limit `float('inf')`
of the last band is modelled as `none`. -/
def PRICE_TICKS : List (ℚ × Option ℚ × ℚ) :=
  [(0, some 10, 0.01),
   (10, some 50, 0.05),
   (50, some 100, 0.1),
   (100, some 500, 0.5),
   (500, some 1000, 1.0),
   (1000, none, 5.0)]

/-- The per-band test `min_price <= price < max_price` of the lookup loop
in `get_price_tick`. -/
def bandMatches (price : ℚ) (mn : ℚ) (mx : Option ℚ) : Bool :=
  decide (mn ≤ price) &&
    (match mx with
     | some m => decide (price < m)
     | none => true)

/-- The `for`-loop of `get_price_tick`: return the tick of the first band
that matches, else fall through to the default `5.0`. -/
def tickLookup (price : ℚ) : List (ℚ × Option ℚ × ℚ) → ℚ
  | [] => 5.0
  | (mn, mx, tick) :: rest =>
      if bandMatches price mn mx then tick else tickLookup price rest

/-- Embedding of `TaiwanStockService.get_price_tick`. -/
def get_price_tick (price : ℚ) : ℚ :=
  tickLookup price PRICE_TICKS

/-- Embedding of `TaiwanStockService.round_taiwan_price`: prices `<= 0` map to `0`,
otherwise snap to the nearest multiple of the tick for the input price
(Python `round(price / tick) * tick`). -/
def round_taiwan_price (price : ℚ) : ℚ :=
  if price ≤ 0 then 0
  else
    let tick := get_price_tick price
    (pyRound (price / tick) : ℚ) * tick

/-- Contiguity check for a band table: the first band starts at `0`, each
band's upper bound is the next band's lower bound, and the last band is
unbounded. -/
def contiguousFrom (lo : ℚ) : List (ℚ × Option ℚ × ℚ) → Bool
  | [] => false
  | [(mn, mx, _)] => decide (mn = lo) && (match mx with | none => true | some _ => false)
  | (mn, mx, _) :: rest =>
      (decide (mn = lo) &&
        match mx with
        | some m => decide (lo < m) && contiguousFrom m rest
        | none => false)

/-- Number of bands of `PRICE_TICKS` whose half-open interval contains
`price`. -/
def countMatchingBands (price : ℚ) : ℕ :=
  (PRICE_TICKS.filter (fun b => bandMatches price b.1 b.2.1)).length

/-- Value of a digit string (most significant first); `none` unless the
list is nonempty and all digits. -/
def digitsToNat : List Char → Option ℕ
  | [] => none
  | cs =>
      if cs.all Char.isDigit then
        some (cs.foldl (fun acc c => 10 * acc + (c.toNat - 48)) 0)
      else none

/-- Value of a possibly-empty digit string; `none` if a non-digit occurs. -/
def digitsToNatOrZero : List Char → Option ℕ
  | [] => some 0
  | cs => digitsToNat cs

/-- Python `float()` on an unsigned decimal literal: digits with at most
one point and at least one digit overall (`"1."`, `".5"`, `"10.02"` are
accepted; `""`, `"."`, `"1.2.3"`, `"a"` are rejected).  Exponents,
`inf`/`nan`, whitespace and underscores never occur in the feed strings
this service cleans, so they are outside the model. -/
def parseUnsignedFloat (cs : List Char) : Option ℚ :=
  let intPart := cs.takeWhile (fun c => c ≠ '.')
  match cs.dropWhile (fun c => c ≠ '.') with
  | [] => (digitsToNat intPart).map (fun n => (n : ℚ))
  | _ :: frac =>
      if intPart.isEmpty && frac.isEmpty then none
      else if frac.any (fun c => c = '.') then none
      else
        match digitsToNatOrZero intPart, digitsToNatOrZero frac with
        | some ip, some fp => some ((ip : ℚ) + (fp : ℚ) / (10 : ℚ) ^ frac.length)
        | _, _ => none

/-- Python `float()` on a string: optional sign, then an unsigned decimal
literal; `none` models `ValueError`. -/
def parseFloat (s : String) : Option ℚ :=
  match s.data with
  | '-' :: rest => (parseUnsignedFloat rest).map (fun q => -q)
  | '+' :: rest => parseUnsignedFloat rest
  | cs => parseUnsignedFloat cs

/-- Python `int()` on a string: optional sign then digits only (a decimal
point raises `ValueError`). -/
def parseInt (s : String) : Option ℤ :=
  match s.data with
  | '-' :: rest => (digitsToNat rest).map (fun n => -(n : ℤ))
  | '+' :: rest => (digitsToNat rest).map (fun n => (n : ℤ))
  | cs => (digitsToNat cs).map (fun n => (n : ℤ))

/-- Python `s.replace(',', '')`: drop every comma. -/
def stripCommas (s : String) : String :=
  ⟨s.data.filter (fun c => c ≠ ',')⟩

/-- Python `s.replace('%', '').replace('+', '')` applied to the
change-percent string: drop every percent sign and plus sign. -/
def cleanPercent (s : String) : String :=
  ⟨s.data.filter (fun c => c ≠ '%' && c ≠ '+')⟩

/-- Python `s.replace(',', '').replace('+', '')` applied to the change
string: drop every comma and plus sign. -/
def cleanChange (s : String) : String :=
  ⟨s.data.filter (fun c => c ≠ ',' && c ≠ '+')⟩

/-- The sentinel test `s in ['--', '-', '']` of the source. -/
def isSentinel (s : String) : Bool :=
  s = "--" || s = "-" || s = ""

/-- Python `int(volume_str.replace(',', '')) if volume_str not in
['--', '-', ''] else 0`; `none` models `ValueError`. -/
def parseVolume (s : String) : Option ℤ :=
  if isSentinel s then some 0 else parseInt (stripCommas s)

/-- One entry appended to `limit_up_stocks` / `limit_down_stocks` by
`_parse_limit_stocks_data`.  `volume` and `turnover` are kept as numbers
(the source renders them as comma-grouped display strings, which carries
no further information); the random display-only `limit_time` estimate is
omitted. -/
structure ClassifiedStock where
  code : String
  name : String
  symbol : String
  current_price : ℚ
  reference_price : ℚ
  change : ℚ
  change_percent : ℚ
  volume : ℤ
  turnover : ℤ
  is_limit : Bool
  limit_type : String
  status : String
deriving DecidableEq, Repr

/-- Outcome of the per-row body of the scan loop: `skipped` covers the
short-row `continue`, the sentinel `continue` and the
`except (ValueError, IndexError)` path; `ignored` is a row that parses
but is appended to neither list; `up`/`down` carry the appended entry. -/
inductive RowResult where
  | skipped
  | ignored
  | up (s : ClassifiedStock)
  | down (s : ClassifiedStock)
deriving DecidableEq, Repr

/-- The entry a row contributes to `limit_up_stocks`, if any. -/
def RowResult.toUp : RowResult → Option ClassifiedStock
  | .up s => some s
  | _ => none

/-- The entry a row contributes to `limit_down_stocks`, if any. -/
def RowResult.toDown : RowResult → Option ClassifiedStock
  | .down s => some s
  | _ => none

/-- The classification step of the loop body, after all numeric fields
parsed: tick-round the current price, derive the reference price, and
compare the change percent against the 9.5 / 9.9 (and −9.5 / −9.9)
thresholds. -/
def classify (code name : String) (price cp change : ℚ) (volume : ℤ) :
    RowResult :=
  let current_price := round_taiwan_price price
  let previous_price := round_taiwan_price (current_price - change)
  if 9.5 ≤ cp then
    RowResult.up
      { code := code, name := name, symbol := code ++ ".TW",
        current_price := current_price, reference_price := previous_price,
        change := change, change_percent := cp, volume := volume,
        turnover := pyInt ((volume : ℚ) * current_price),
        is_limit := decide (9.9 ≤ cp), limit_type := "up",
        status := if 9.9 ≤ cp then "漲停" else "接近漲停" }
  else if cp ≤ -9.5 then
    RowResult.down
      { code := code, name := name, symbol := code ++ ".TW",
        current_price := current_price, reference_price := previous_price,
        change := change, change_percent := cp, volume := volume,
        turnover := pyInt ((volume : ℚ) * current_price),
        is_limit := decide (cp ≤ -9.9), limit_type := "down",
        status := if cp ≤ -9.9 then "跌停" else "接近跌停" }
  else RowResult.ignored

/-- The whole loop body of `_parse_limit_stocks_data` for one
`stock_row`: the `len < 9` guard, the field reads (indices 0, 1, 8, 10,
11, 2 — a missing index is the caught `IndexError`), the sentinel check
on price and change-percent, the numeric conversions (a failure is the
caught `ValueError`), then classification. -/
def processRow (row : List String) : RowResult :=
  if row.length < 9 then RowResult.skipped
  else
    let code := row.getD 0 ""
    let nm := row.getD 1 ""
    let volS := row.getD 2 ""
    let priceS := row.getD 8 ""
    match row[10]?, row[11]? with
    | some changeS, some cpS =>
        if isSentinel priceS || isSentinel cpS then RowResult.skipped
        else
          match parseFloat (stripCommas priceS),
              parseFloat (cleanPercent cpS),
              parseFloat (cleanChange changeS),
              parseVolume volS with
          | some price, some cp, some change, some volume =>
              classify code nm price cp change volume
          | _, _, _, _ => RowResult.skipped
    | _, _ => RowResult.skipped

/-- The `scan_summary` dict (the wall-clock `scan_time` is omitted). -/
structure ScanSummary where
  total_scanned : ℕ
  limit_up_found : ℕ
  limit_down_found : ℕ
deriving DecidableEq, Repr

/-- The result dict of `_parse_limit_stocks_data` (the wall-clock
`last_updated` / `market_date` strings and the constant `data_source`
label are omitted). -/
structure LimitScanResult where
  limit_up : List ClassifiedStock
  limit_down : List ClassifiedStock
  scan_summary : ScanSummary
deriving DecidableEq, Repr

/-- Rows of `data9` that end up appended to `limit_up_stocks`, in input
order. -/
def upClassified (rows : List (List String)) : List ClassifiedStock :=
  (rows.map processRow).filterMap RowResult.toUp

/-- Rows of `data9` that end up appended to `limit_down_stocks`, in input
order. -/
def downClassified (rows : List (List String)) : List ClassifiedStock :=
  (rows.map processRow).filterMap RowResult.toDown

/-- Sort key order for the up list: Python
`sort(key=..., reverse=True)` is a stable descending sort. -/
def upLe (a b : ClassifiedStock) : Bool :=
  decide (b.change_percent ≤ a.change_percent)

/-- Sort key order for the down list: stable ascending sort. -/
def downLe (a b : ClassifiedStock) : Bool :=
  decide (a.change_percent ≤ b.change_percent)

/-- Embedding of `TaiwanStockService._parse_limit_stocks_data`, from the `data9` rows
on: classify every row, sort each direction (stably, as Python's
`list.sort` does), truncate to 20, and report the pre-truncation counts
in `scan_summary`. -/
def parse_limit_stocks_data (rows : List (List String)) : LimitScanResult :=
  let ups := upClassified rows
  let downs := downClassified rows
  { limit_up := (ups.mergeSort upLe).take 20
    limit_down := (downs.mergeSort downLe).take 20
    scan_summary :=
      { total_scanned := rows.length
        limit_up_found := ups.length
        limit_down_found := downs.length } }

end TaiwanStock

namespace MarketSession

/-- A wall-clock instant, as much of Python's `datetime.now()` as the two
market-status classifiers read: an absolute day index (with `day % 7` the
Monday-based weekday, as in `datetime.weekday()`), the hour and the
minute.  `day + k` models `now + timedelta(days=k)`. -/
structure DateTime where
  day : ℕ
  hour : ℕ
  minute : ℕ
deriving DecidableEq, Repr

/-- Minutes since midnight of a `DateTime`. -/
def minutesOfDay (t : DateTime) : ℕ :=
  60 * t.hour + t.minute

/-- The fields of the `market_status` dict of
`StockDataService.get_market_status` that carry session information
(`timezone`, `current_time`, the `markets` echo of `is_open` and
`last_updated` are omitted). -/
structure MarketStatus where
  is_open : Bool
  next_open : Option DateTime
  next_close : Option DateTime
  trading_day : Bool
deriving DecidableEq, Repr

/-- Embedding of `StockDataService.get_market_status`: on Monday–Friday, `is_open` iff
`13 <= hour < 21`; `next_open` is today 13:30 before 13:00, the next
trading day's (or following Monday's) 13:30 from 21:00 on, and untouched
(`None`) in between; weekends clear `trading_day` and point `next_open`
at the coming Monday 13:30. -/
def get_market_status (now : DateTime) : MarketStatus :=
  let weekday := now.day % 7
  let hour := now.hour
  if weekday < 5 then
    { is_open := decide (13 ≤ hour) && decide (hour < 21)
      next_open :=
        if hour < 13 then some ⟨now.day, 13, 30⟩
        else if 21 ≤ hour then
          let next_day := now.day + 1
          if next_day % 7 < 5 then some ⟨next_day, 13, 30⟩
          else some ⟨next_day + (7 - next_day % 7), 13, 30⟩
        else none
      next_close :=
        if 13 ≤ hour ∧ hour < 21 then some ⟨now.day, 21, 0⟩ else none
      trading_day := true }
  else
    { is_open := false
      next_open := some ⟨now.day + (7 - weekday), 13, 30⟩
      next_close := none
      trading_day := false }

/-- Embedding of `TaiwanStockService._get_market_status`: the string `"開市"` (open)
on Monday–Friday when `hour == 9`, `10 <= hour <= 12`, or `hour == 13 and
minute <= 30`; otherwise `"休市"` (closed). -/
def tw_get_market_status (now : DateTime) : String :=
  let hour := now.hour
  let minute := now.minute
  let weekday := now.day % 7
  if 5 ≤ weekday then "休市"
  else if hour = 9 ∧ 0 ≤ minute then "開市"
  else if 10 ≤ hour ∧ hour ≤ 12 then "開市"
  else if hour = 13 ∧ minute ≤ 30 then "開市"
  else "休市"

/-- The session window the spec claims for `get_market_status`: the
half-open interval from the declared session open 13:30 (the time the
function itself assigns to `next_open`) to the close 21:00. -/
def inClaimedWindow (now : DateTime) : Prop :=
  13 * 60 + 30 ≤ minutesOfDay now ∧ minutesOfDay now < 21 * 60

end MarketSession

open TaiwanStock MarketSession

lemma get_price_tick_eq (price : ℚ) (h0 : 0 ≤ price) :
    get_price_tick price =
      if price < 10 then 1/100
      else if price < 50 then 1/20
      else if price < 100 then 1/10
      else if price < 500 then 1/2
      else if price < 1000 then 1
      else 5 := by
  rcases lt_or_le price 10 with h1 | h1
  · rw [if_pos h1]
    norm_num [get_price_tick, tickLookup, PRICE_TICKS, bandMatches, h0, h1]
  · rw [if_neg (not_lt.mpr h1)]
    rcases lt_or_le price 50 with h2 | h2
    · rw [if_pos h2]
      norm_num [get_price_tick, tickLookup, PRICE_TICKS, bandMatches, h0, h1,
        h2, not_lt.mpr h1]
    · rw [if_neg (not_lt.mpr h2)]
      rcases lt_or_le price 100 with h3 | h3
      · rw [if_pos h3]
        norm_num [get_price_tick, tickLookup, PRICE_TICKS, bandMatches, h0,
          h1, h2, h3, not_lt.mpr h1, not_lt.mpr h2]
      · rw [if_neg (not_lt.mpr h3)]
        rcases lt_or_le price 500 with h4 | h4
        · rw [if_pos h4]
          norm_num [get_price_tick, tickLookup, PRICE_TICKS, bandMatches, h0,
            h1, h2, h3, h4, not_lt.mpr h1, not_lt.mpr h2, not_lt.mpr h3]
        · rw [if_neg (not_lt.mpr h4)]
          rcases lt_or_le price 1000 with h5 | h5
          · rw [if_pos h5]
            norm_num [get_price_tick, tickLookup, PRICE_TICKS, bandMatches,
              h0, h1, h2, h3, h4, h5, not_lt.mpr h1, not_lt.mpr h2,
              not_lt.mpr h3, not_lt.mpr h4]
          · rw [if_neg (not_lt.mpr h5)]
            norm_num [get_price_tick, tickLookup, PRICE_TICKS, bandMatches,
              h0, h1, h2, h3, h4, h5, not_lt.mpr h1, not_lt.mpr h2,
              not_lt.mpr h3, not_lt.mpr h4, not_lt.mpr h5]

lemma countMatchingBands_eq_one (price : ℚ) (h0 : 0 ≤ price) :
    countMatchingBands price = 1 := by
  rcases lt_or_le price 10 with h1 | h1
  · have n10 : ¬ ((10 : ℚ) ≤ price) := by linarith
    have n50 : ¬ ((50 : ℚ) ≤ price) := by linarith
    have n100 : ¬ ((100 : ℚ) ≤ price) := by linarith
    have n500 : ¬ ((500 : ℚ) ≤ price) := by linarith
    have n1000 : ¬ ((1000 : ℚ) ≤ price) := by linarith
    norm_num [countMatchingBands, PRICE_TICKS, bandMatches, List.filter, h0,
      h1, n10, n50, n100, n500, n1000]
  · rcases lt_or_le price 50 with h2 | h2
    · have n10 : ¬ (price < (10 : ℚ)) := not_lt.mpr h1
      have n50 : ¬ ((50 : ℚ) ≤ price) := by linarith
      have n100 : ¬ ((100 : ℚ) ≤ price) := by linarith
      have n500 : ¬ ((500 : ℚ) ≤ price) := by linarith
      have n1000 : ¬ ((1000 : ℚ) ≤ price) := by linarith
      norm_num [countMatchingBands, PRICE_TICKS, bandMatches, List.filter,
        h0, h1, h2, n10, n50, n100, n500, n1000]
    · rcases lt_or_le price 100 with h3 | h3
      · have n10 : ¬ (price < (10 : ℚ)) := by linarith
        have n50 : ¬ (price < (50 : ℚ)) := not_lt.mpr h2
        have n100 : ¬ ((100 : ℚ) ≤ price) := by linarith
        have n500 : ¬ ((500 : ℚ) ≤ price) := by linarith
        have n1000 : ¬ ((1000 : ℚ) ≤ price) := by linarith
        norm_num [countMatchingBands, PRICE_TICKS, bandMatches, List.filter,
          h0, h2, h3, n10, n50, n100, n500, n1000]
      · rcases lt_or_le price 500 with h4 | h4
        · have n10 : ¬ (price < (10 : ℚ)) := by linarith
          have n50 : ¬ (price < (50 : ℚ)) := by linarith
          have n100 : ¬ (price < (100 : ℚ)) := not_lt.mpr h3
          have n500 : ¬ ((500 : ℚ) ≤ price) := by linarith
          have n1000 : ¬ ((1000 : ℚ) ≤ price) := by linarith
          norm_num [countMatchingBands, PRICE_TICKS, bandMatches,
            List.filter, h0, h3, h4, n10, n50, n100, n500, n1000]
        · rcases lt_or_le price 1000 with h5 | h5
          · have n10 : ¬ (price < (10 : ℚ)) := by linarith
            have n50 : ¬ (price < (50 : ℚ)) := by linarith
            have n100 : ¬ (price < (100 : ℚ)) := by linarith
            have n500 : ¬ (price < (500 : ℚ)) := not_lt.mpr h4
            have n1000 : ¬ ((1000 : ℚ) ≤ price) := by linarith
            norm_num [countMatchingBands, PRICE_TICKS, bandMatches,
              List.filter, h0, h4, h5, n10, n50, n100, n500, n1000]
          · have n10 : ¬ (price < (10 : ℚ)) := by linarith
            have n50 : ¬ (price < (50 : ℚ)) := by linarith
            have n100 : ¬ (price < (100 : ℚ)) := by linarith
            have n500 : ¬ (price < (500 : ℚ)) := by linarith
            have n1000 : ¬ (price < (1000 : ℚ)) := not_lt.mpr h5
            norm_num [countMatchingBands, PRICE_TICKS, bandMatches,
              List.filter, h0, h5, n10, n50, n100, n500, n1000]

/-- C5: for every `price >= 0`, `round_taiwan_price price` is an integer
multiple of `get_price_tick price` (exactly, in the rational model of the
floating-point source). -/
theorem round_taiwan_price_is_tick_multiple (price : ℚ) (h : 0 ≤ price) :
    ∃ n : ℤ, round_taiwan_price price = (n : ℚ) * get_price_tick price := by
  by_cases hp : price ≤ 0
  · exact ⟨0, by simp [round_taiwan_price, hp]⟩
  · exact ⟨pyRound (price / get_price_tick price),
      by simp [round_taiwan_price, hp]⟩

/-- Witness for C5 at the concrete price `3`. -/
theorem round_taiwan_price_is_tick_multiple_witness :
    ∃ n : ℤ, round_taiwan_price 3 = (n : ℚ) * get_price_tick 3 :=
  round_taiwan_price_is_tick_multiple 3 (by norm_num)

/-- C6: the tick band table partitions `[0, ∞)`: it is contiguous from 0
with an unbounded last band, every price `>= 0` matches exactly one band,
a price exactly on a boundary takes the upper band's tick, and
`get_price_tick` is monotonically non-decreasing on `[0, ∞)`. -/
theorem price_ticks_partition :
    contiguousFrom 0 PRICE_TICKS = true ∧
    (∀ price : ℚ, 0 ≤ price → countMatchingBands price = 1) ∧
    (get_price_tick 10 = 1/20 ∧ get_price_tick 50 = 1/10 ∧
      get_price_tick 100 = 1/2 ∧ get_price_tick 500 = 1 ∧
      get_price_tick 1000 = 5) ∧
    (∀ p q : ℚ, 0 ≤ p → p ≤ q → get_price_tick p ≤ get_price_tick q) := by
  refine ⟨?_, countMatchingBands_eq_one, ⟨?_, ?_, ?_, ?_, ?_⟩, ?_⟩
  · norm_num [contiguousFrom, PRICE_TICKS]
  · norm_num [get_price_tick_eq 10 (by norm_num)]
  · norm_num [get_price_tick_eq 50 (by norm_num)]
  · norm_num [get_price_tick_eq 100 (by norm_num)]
  · norm_num [get_price_tick_eq 500 (by norm_num)]
  · norm_num [get_price_tick_eq 1000 (by norm_num)]
  · intro p q hp hpq
    have hq : 0 ≤ q := le_trans hp hpq
    rw [get_price_tick_eq p hp, get_price_tick_eq q hq]
    split_ifs <;> linarith

/-- Witness for C6: the universally quantified conjuncts at the concrete
prices 7 and (3, 12). -/
theorem price_ticks_partition_witness :
    countMatchingBands 7 = 1 ∧ get_price_tick 3 ≤ get_price_tick 12 :=
  ⟨price_ticks_partition.2.1 7 (by norm_num),
   price_ticks_partition.2.2.2 3 12 (by norm_num) (by norm_num)⟩

/-- C9: a price `<= 0` makes `round_taiwan_price` return `0` rather than
erroring, and a negative price falls outside every band of the tick
table, so `get_price_tick` recovers by falling through to its no-op
default tick `5.0` rather than faulting. -/
theorem nonpositive_price_recovery (p : ℚ) :
    (p ≤ 0 → round_taiwan_price p = 0) ∧
    (p < 0 → get_price_tick p = 5) := by
  constructor
  · intro h
    simp [round_taiwan_price, h]
  · intro h
    have h0 : ¬ (0 ≤ p) := not_le.mpr h
    have h10 : ¬ ((10 : ℚ) ≤ p) := by intro hc; linarith
    have h50 : ¬ ((50 : ℚ) ≤ p) := by intro hc; linarith
    have h100 : ¬ ((100 : ℚ) ≤ p) := by intro hc; linarith
    have h500 : ¬ ((500 : ℚ) ≤ p) := by intro hc; linarith
    have h1000 : ¬ ((1000 : ℚ) ≤ p) := by intro hc; linarith
    norm_num [get_price_tick, tickLookup, PRICE_TICKS, bandMatches, h0, h10,
      h50, h100, h500, h1000]

/-- Witness for C9 at the concrete price `-1`. -/
theorem nonpositive_price_recovery_witness :
    round_taiwan_price (-1) = 0 ∧ get_price_tick (-1) = 5 :=
  ⟨(nonpositive_price_recovery (-1)).1 (by norm_num),
   (nonpositive_price_recovery (-1)).2 (by norm_num)⟩

/-- C1: given the parsed change percent, classification follows the spec
thresholds: `>= 9.9` is an up row with `is_limit = true`; `[9.5, 9.9)` an
up row with `is_limit = false`; `<= -9.9` a down row with
`is_limit = true`; `(-9.9, -9.5]` a down row with `is_limit = false`;
anything in `(-9.5, 9.5)` joins neither list. -/
theorem limit_classification_thresholds (code nm : String)
    (price cp change : ℚ) (vol : ℤ) :
    ((9.9 : ℚ) ≤ cp →
      (classify code nm price cp change vol).toUp.map
        ClassifiedStock.is_limit = some true ∧
      (classify code nm price cp change vol).toDown = none) ∧
    ((9.5 : ℚ) ≤ cp ∧ cp < 9.9 →
      (classify code nm price cp change vol).toUp.map
        ClassifiedStock.is_limit = some false ∧
      (classify code nm price cp change vol).toDown = none) ∧
    (cp ≤ -9.9 →
      (classify code nm price cp change vol).toDown.map
        ClassifiedStock.is_limit = some true ∧
      (classify code nm price cp change vol).toUp = none) ∧
    ((-9.9 : ℚ) < cp ∧ cp ≤ -9.5 →
      (classify code nm price cp change vol).toDown.map
        ClassifiedStock.is_limit = some false ∧
      (classify code nm price cp change vol).toUp = none) ∧
    ((-9.5 : ℚ) < cp ∧ cp < 9.5 →
      (classify code nm price cp change vol).toUp = none ∧
      (classify code nm price cp change vol).toDown = none) := by
  refine ⟨?_, ?_, ?_, ?_, ?_⟩
  · intro h
    have h95 : (9.5 : ℚ) ≤ cp := by linarith
    simp [classify, h95, h, RowResult.toUp, RowResult.toDown]
  · intro h
    have h99 : ¬ ((9.9 : ℚ) ≤ cp) := not_le.mpr h.2
    simp [classify, h.1, h99, RowResult.toUp, RowResult.toDown]
  · intro h
    have h95 : ¬ ((9.5 : ℚ) ≤ cp) := by intro hc; linarith
    have hd : cp ≤ (-9.5 : ℚ) := by linarith
    simp [classify, h95, hd, h, RowResult.toUp, RowResult.toDown]
  · intro h
    have h95 : ¬ ((9.5 : ℚ) ≤ cp) := by intro hc; linarith
    have h99 : ¬ (cp ≤ (-9.9 : ℚ)) := not_le.mpr h.1
    simp [classify, h95, h.2, h99, RowResult.toUp, RowResult.toDown]
  · intro h
    have h95 : ¬ ((9.5 : ℚ) ≤ cp) := not_le.mpr h.2
    have hd : ¬ (cp ≤ (-9.5 : ℚ)) := not_le.mpr h.1
    simp [classify, h95, hd, RowResult.toUp, RowResult.toDown]

/-- Witness for C1: the five threshold regimes at the concrete change
percents 9.9, 9.6, -9.9, -9.6 and 0. -/
theorem limit_classification_thresholds_witness :
    ((classify "2330" "T" 100 9.9 9 0).toUp.map
        ClassifiedStock.is_limit = some true ∧
      (classify "2330" "T" 100 9.9 9 0).toDown = none) ∧
    ((classify "2330" "T" 100 9.6 9 0).toUp.map
        ClassifiedStock.is_limit = some false ∧
      (classify "2330" "T" 100 9.6 9 0).toDown = none) ∧
    ((classify "2330" "T" 100 (-9.9) (-9) 0).toDown.map
        ClassifiedStock.is_limit = some true ∧
      (classify "2330" "T" 100 (-9.9) (-9) 0).toUp = none) ∧
    ((classify "2330" "T" 100 (-9.6) (-9) 0).toDown.map
        ClassifiedStock.is_limit = some false ∧
      (classify "2330" "T" 100 (-9.6) (-9) 0).toUp = none) ∧
    ((classify "2330" "T" 100 0 0 0).toUp = none ∧
      (classify "2330" "T" 100 0 0 0).toDown = none) :=
  ⟨(limit_classification_thresholds "2330" "T" 100 9.9 9 0).1
      (by norm_num),
   (limit_classification_thresholds "2330" "T" 100 9.6 9 0).2.1
      (by norm_num),
   (limit_classification_thresholds "2330" "T" 100 (-9.9) (-9) 0).2.2.1
      (by norm_num),
   (limit_classification_thresholds "2330" "T" 100 (-9.6) (-9) 0).2.2.2.1
      (by norm_num),
   (limit_classification_thresholds "2330" "T" 100 0 0 0).2.2.2.2
      (by norm_num)⟩

/-- C4 counterexample: for the classified row with price `"10.02"`
(whose parsed value is not tick-aligned: it tick-rounds to `10.0`),
change `"+0.92"` and change percent `"+10.11%"`, the output reference
price is `9.08 = round_to_tick(10.0 - 0.92)`, whereas the claim's
formula over the row's parsed values gives
`round_to_tick(10.02 - 0.92) = 9.10`. -/
theorem reference_price_counterexample :
    (processRow ["1111", "Y", "10", "", "", "", "", "", "10.02", "",
        "+0.92", "+10.11%"]).toUp.map ClassifiedStock.reference_price =
      some (227/25 : ℚ) ∧
    round_taiwan_price ((10.02 : ℚ) - 0.92) = (91/10 : ℚ) ∧
    (227/25 : ℚ) ≠ (91/10 : ℚ) := by
  refine ⟨by with_unfolding_all decide, by with_unfolding_all decide,
    by norm_num⟩

set_option maxRecDepth 100000 in
/-- C4 amended: the reference price of every classified row equals
`round_to_tick(rounded_current - change)` where `rounded_current` is the
already tick-rounded current price (the output `current_price`), not the
raw parsed price; the two formulas agree whenever the parsed price is
itself tick-aligned, as in the spec's scenario row, which is classified
up-limit with `is_limit = true` and
`reference_price = round_to_tick(100.00) = 100.00`. -/
theorem reference_price_derivation :
    (∀ (code nm : String) (price cp change : ℚ) (vol : ℤ)
        (s : ClassifiedStock),
      ((classify code nm price cp change vol).toUp = some s ∨
        (classify code nm price cp change vol).toDown = some s) →
      s.current_price = round_taiwan_price price ∧
      s.reference_price =
        round_taiwan_price (round_taiwan_price price - change)) ∧
    ((processRow ["2345", "N", "1,000", "", "", "", "", "", "110.00",
        "", "10.00", "9.90%"]).toUp.map
        (fun s => (s.is_limit, s.reference_price)) = some (true, 100) ∧
      round_taiwan_price ((110.00 : ℚ) - 10.00) = 100) := by
  constructor
  · intro code nm price cp change vol s h
    unfold classify at h
    dsimp only at h
    split_ifs at h <;>
      simp [RowResult.toUp, RowResult.toDown] at h <;>
      (subst h; exact ⟨rfl, rfl⟩)
  · exact ⟨by with_unfolding_all decide, by with_unfolding_all decide⟩

set_option maxRecDepth 100000 in
/-- Witness for C4 (amended) at the spec scenario's parsed values. -/
theorem reference_price_derivation_witness :
    ({ code := "2345", name := "N", symbol := "2345.TW",
       current_price := 110, reference_price := 100, change := 10,
       change_percent := 9.9, volume := 1000, turnover := 110000,
       is_limit := true, limit_type := "up",
       status := "漲停" } : ClassifiedStock).current_price =
      round_taiwan_price 110 ∧
    ({ code := "2345", name := "N", symbol := "2345.TW",
       current_price := 110, reference_price := 100, change := 10,
       change_percent := 9.9, volume := 1000, turnover := 110000,
       is_limit := true, limit_type := "up",
       status := "漲停" } : ClassifiedStock).reference_price =
      round_taiwan_price (round_taiwan_price 110 - 10) :=
  reference_price_derivation.1 "2345" "N" 110 9.9 10 1000 _
    (Or.inl (by with_unfolding_all rfl))

/-- C7 counterexample: on a Monday at 13:00, `get_market_status` reports
`is_open = true`, although 13:00 is before the session open 13:30 that
the very same call assigns to `next_open` when invoked before the open —
so `is_open` is not the half-open window `[13:30, 21:00)`.  Likewise the
Taiwan classifier reports open at exactly 13:30, outside the half-open
window `[09:00, 13:30)`. -/
theorem market_status_window_counterexample :
    (get_market_status ⟨0, 13, 0⟩).is_open = true ∧
    ¬ inClaimedWindow ⟨0, 13, 0⟩ ∧
    (get_market_status ⟨0, 12, 59⟩).next_open = some ⟨0, 13, 30⟩ ∧
    tw_get_market_status ⟨0, 13, 30⟩ = "開市" := by
  refine ⟨by decide, ?_, by decide, by decide⟩
  intro h
  exact absurd h.1 (by decide)

/-- C7 amended: both classifiers do use half-open windows on trading
days, but at a coarser granularity than their declared session bounds:
`get_market_status` is open iff the hour lies in `[13, 21)` (so the half
hour `[13:00, 13:30)` before its own `next_open` time 13:30 already
counts as open), and the Taiwan classifier is open iff the time lies in
`[09:00, 13:31)` (so exactly 13:30, the session close, still counts as
open); weekends are closed. -/
theorem market_status_open_window (now : DateTime)
    (hm : now.minute < 60) :
    ((get_market_status now).is_open = true ↔
      (now.day % 7 < 5 ∧ 13 ≤ now.hour ∧ now.hour < 21)) ∧
    (tw_get_market_status now = "開市" ↔
      (now.day % 7 < 5 ∧ 9 * 60 ≤ minutesOfDay now ∧
        minutesOfDay now < 13 * 60 + 31)) := by
  constructor
  · by_cases wd : now.day % 7 < 5
    · simp [get_market_status, wd]
    · simp [get_market_status, wd]
  · unfold tw_get_market_status minutesOfDay
    dsimp only
    split_ifs with h1 h2 h3 h4
    · exact iff_of_false (by decide) (by omega)
    · exact iff_of_true rfl (by omega)
    · exact iff_of_true rfl (by omega)
    · exact iff_of_true rfl (by omega)
    · exact iff_of_false (by decide) (by omega)

/-- Witness for C7 (amended) on a Monday at 10:00. -/
theorem market_status_open_window_witness :
    ((get_market_status ⟨0, 10, 0⟩).is_open = true ↔
      ((0 : ℕ) % 7 < 5 ∧ 13 ≤ 10 ∧ 10 < 21)) ∧
    (tw_get_market_status ⟨0, 10, 0⟩ = "開市" ↔
      ((0 : ℕ) % 7 < 5 ∧ 9 * 60 ≤ minutesOfDay ⟨0, 10, 0⟩ ∧
        minutesOfDay ⟨0, 10, 0⟩ < 13 * 60 + 31)) :=
  market_status_open_window ⟨0, 10, 0⟩ (by norm_num)

/-- C8: any weekend timestamp yields `is_open = false`,
`trading_day = false`, and `next_open` equal to the immediately
following Monday (strictly later, at most seven days ahead, weekday 0)
at the session open time 13:30. -/
theorem weekend_market_status (now : DateTime) (h : 5 ≤ now.day % 7) :
    (get_market_status now).is_open = false ∧
    (get_market_status now).trading_day = false ∧
    (get_market_status now).next_open =
      some ⟨now.day + (7 - now.day % 7), 13, 30⟩ ∧
    (now.day + (7 - now.day % 7)) % 7 = 0 ∧
    now.day < now.day + (7 - now.day % 7) ∧
    now.day + (7 - now.day % 7) ≤ now.day + 7 := by
  have hw : ¬ (now.day % 7 < 5) := by omega
  refine ⟨?_, ?_, ?_, by omega, by omega, by omega⟩ <;>
    simp [get_market_status, hw]

lemma upLe_trans (a b c : ClassifiedStock) :
    upLe a b → upLe b c → upLe a c := by
  simp only [upLe, decide_eq_true_eq]
  intro h1 h2
  exact le_trans h2 h1

lemma upLe_total (a b : ClassifiedStock) : upLe a b || upLe b a := by
  simp only [upLe, Bool.or_eq_true, decide_eq_true_eq]
  exact le_total b.change_percent a.change_percent

lemma downLe_trans (a b c : ClassifiedStock) :
    downLe a b → downLe b c → downLe a c := by
  simp only [downLe, decide_eq_true_eq]
  intro h1 h2
  exact le_trans h1 h2

lemma downLe_total (a b : ClassifiedStock) : downLe a b || downLe b a := by
  simp only [downLe, Bool.or_eq_true, decide_eq_true_eq]
  exact le_total a.change_percent b.change_percent

/-- C2: the scan output is the classified up rows sorted descending by
change percent and the down rows sorted ascending, each truncated to 20
elements: both returned lists are sorted accordingly, their lengths are
`min (classified count) 20` (so 25 up-eligible rows return exactly 20),
and every returned entry is a classified row of the input. -/
theorem scan_sorts_and_truncates (rows : List (List String)) :
    (parse_limit_stocks_data rows).limit_up.Pairwise
      (fun a b => b.change_percent ≤ a.change_percent) ∧
    (parse_limit_stocks_data rows).limit_down.Pairwise
      (fun a b => a.change_percent ≤ b.change_percent) ∧
    (parse_limit_stocks_data rows).limit_up.length =
      min (upClassified rows).length 20 ∧
    (parse_limit_stocks_data rows).limit_down.length =
      min (downClassified rows).length 20 ∧
    (∀ s ∈ (parse_limit_stocks_data rows).limit_up,
      s ∈ upClassified rows) ∧
    (∀ s ∈ (parse_limit_stocks_data rows).limit_down,
      s ∈ downClassified rows) := by
  refine ⟨?_, ?_, ?_, ?_, ?_, ?_⟩
  · have hs := List.sorted_mergeSort upLe_trans upLe_total (upClassified rows)
    have ht := hs.sublist (List.take_sublist 20 _)
    exact ht.imp (fun h => by simpa [upLe] using h)
  · have hs := List.sorted_mergeSort downLe_trans downLe_total
      (downClassified rows)
    have ht := hs.sublist (List.take_sublist 20 _)
    exact ht.imp (fun h => by simpa [downLe] using h)
  · show (((upClassified rows).mergeSort upLe).take 20).length = _
    rw [List.length_take, List.length_mergeSort, Nat.min_comm]
  · show (((downClassified rows).mergeSort downLe).take 20).length = _
    rw [List.length_take, List.length_mergeSort, Nat.min_comm]
  · intro s hmem
    exact ((List.mergeSort_perm (upClassified rows) upLe).subset)
      (List.take_subset 20 _ hmem)
  · intro s hmem
    exact ((List.mergeSort_perm (downClassified rows) downLe).subset)
      (List.take_subset 20 _ hmem)

set_option maxRecDepth 100000 in
/-- Witness for C2 on a concrete one-row input: the single classified
up-limit row of the scan output is a classified row of the input. -/
theorem scan_sorts_and_truncates_witness :
    ClassifiedStock.mk "2345" "測試" "2345.TW" 110 100 10 (99/10) 1000
      110000 true "up" "漲停" ∈
      upClassified [["2345", "測試", "1,000", "", "", "", "", "",
        "110.00", "", "10.00", "9.90%"]] :=
  (scan_sorts_and_truncates _).2.2.2.2.1 _ (by
    have h : (parse_limit_stocks_data [["2345", "測試", "1,000", "", "",
        "", "", "", "110.00", "", "10.00", "9.90%"]]).limit_up =
        [ClassifiedStock.mk "2345" "測試" "2345.TW" 110 100 10 (99/10)
          1000 110000 true "up" "漲停"] := by with_unfolding_all rfl
    rw [h]
    exact List.mem_singleton.mpr rfl)

/-- C10: the `scan_summary` counts are the sizes of the classified lists
before the 20-element truncation, so each count dominates the length of
the corresponding returned list and exceeds 20 exactly when more than 20
rows classified in that direction. -/
theorem scan_counts_before_truncation (rows : List (List String)) :
    (parse_limit_stocks_data rows).scan_summary.limit_up_found =
      (upClassified rows).length ∧
    (parse_limit_stocks_data rows).scan_summary.limit_down_found =
      (downClassified rows).length ∧
    (parse_limit_stocks_data rows).limit_up.length ≤
      (parse_limit_stocks_data rows).scan_summary.limit_up_found ∧
    (parse_limit_stocks_data rows).limit_down.length ≤
      (parse_limit_stocks_data rows).scan_summary.limit_down_found ∧
    (20 < (upClassified rows).length →
      20 < (parse_limit_stocks_data rows).scan_summary.limit_up_found ∧
      (parse_limit_stocks_data rows).limit_up.length = 20) ∧
    (20 < (downClassified rows).length →
      20 < (parse_limit_stocks_data rows).scan_summary.limit_down_found ∧
      (parse_limit_stocks_data rows).limit_down.length = 20) := by
  have hu : (parse_limit_stocks_data rows).limit_up.length =
      min (upClassified rows).length 20 := by
    show (((upClassified rows).mergeSort upLe).take 20).length = _
    rw [List.length_take, List.length_mergeSort, Nat.min_comm]
  have hd : (parse_limit_stocks_data rows).limit_down.length =
      min (downClassified rows).length 20 := by
    show (((downClassified rows).mergeSort downLe).take 20).length = _
    rw [List.length_take, List.length_mergeSort, Nat.min_comm]
  refine ⟨rfl, rfl, ?_, ?_, ?_, ?_⟩
  · rw [hu]; show min _ _ ≤ (upClassified rows).length; omega
  · rw [hd]; show min _ _ ≤ (downClassified rows).length; omega
  · intro h
    refine ⟨h, ?_⟩
    rw [hu]; omega
  · intro h
    refine ⟨h, ?_⟩
    rw [hd]; omega

/-- C3: rows whose price or change-percent field is a sentinel string
(`"--"`, `"-"`, `""`), rows whose price, change-percent, change or
volume field fails numeric parsing (`ValueError`), and rows shorter than
12 entries, whose `stock_row[10]` or `stock_row[11]` read raises
`IndexError`, are silently skipped; a skipped row contributes to neither
output list and to neither found count, yet raises `total_scanned` by
one. -/
theorem unparsable_rows_skipped :
    (∀ (row : List String) (cpS : String), row[11]? = some cpS →
      (isSentinel (row.getD 8 "") || isSentinel cpS) = true →
      processRow row = RowResult.skipped) ∧
    (∀ row : List String,
      parseFloat (stripCommas (row.getD 8 "")) = none →
      processRow row = RowResult.skipped) ∧
    (∀ (row : List String) (cpS : String), row[11]? = some cpS →
      parseFloat (cleanPercent cpS) = none →
      processRow row = RowResult.skipped) ∧
    (∀ (row : List String) (changeS : String), row[10]? = some changeS →
      parseFloat (cleanChange changeS) = none →
      processRow row = RowResult.skipped) ∧
    (∀ row : List String, parseVolume (row.getD 2 "") = none →
      processRow row = RowResult.skipped) ∧
    (∀ row : List String, row.length < 12 →
      processRow row = RowResult.skipped) ∧
    (∀ (pre post : List (List String)) (row : List String),
      processRow row = RowResult.skipped →
      (parse_limit_stocks_data (pre ++ row :: post)).limit_up =
        (parse_limit_stocks_data (pre ++ post)).limit_up ∧
      (parse_limit_stocks_data (pre ++ row :: post)).limit_down =
        (parse_limit_stocks_data (pre ++ post)).limit_down ∧
      (parse_limit_stocks_data
          (pre ++ row :: post)).scan_summary.total_scanned =
        (parse_limit_stocks_data
          (pre ++ post)).scan_summary.total_scanned + 1 ∧
      (parse_limit_stocks_data
          (pre ++ row :: post)).scan_summary.limit_up_found =
        (parse_limit_stocks_data
          (pre ++ post)).scan_summary.limit_up_found ∧
      (parse_limit_stocks_data
          (pre ++ row :: post)).scan_summary.limit_down_found =
        (parse_limit_stocks_data
          (pre ++ post)).scan_summary.limit_down_found) := by
  refine ⟨?_, ?_, ?_, ?_, ?_, ?_, ?_⟩
  · intro row cpS h11 hs
    unfold processRow
    dsimp only
    split
    · rfl
    · rw [h11]
      cases h10 : row[10]? with
      | none => rfl
      | some changeS =>
          dsimp only
          simp only [hs]
          rfl
  · intro row hp
    unfold processRow
    dsimp only
    split
    · rfl
    · cases h10 : row[10]? with
      | none => rfl
      | some changeS =>
          cases h11 : row[11]? with
          | none => rfl
          | some cpS =>
              dsimp only
              split
              · rfl
              · rw [hp]
  · intro row cpS h11 hcp
    unfold processRow
    dsimp only
    split
    · rfl
    · rw [h11]
      cases h10 : row[10]? with
      | none => rfl
      | some changeS =>
          dsimp only
          split
          · rfl
          · rw [hcp]
            cases hp : parseFloat (stripCommas (row.getD 8 "")) <;> rfl
  · intro row changeS h10 hch
    unfold processRow
    dsimp only
    split
    · rfl
    · rw [h10]
      cases h11 : row[11]? with
      | none => rfl
      | some cpS =>
          dsimp only
          split
          · rfl
          · rw [hch]
            cases hp : parseFloat (stripCommas (row.getD 8 "")) <;>
              cases hcp : parseFloat (cleanPercent cpS) <;> rfl
  · intro row hvol
    unfold processRow
    dsimp only
    split
    · rfl
    · cases h10 : row[10]? with
      | none => rfl
      | some changeS =>
          cases h11 : row[11]? with
          | none => rfl
          | some cpS =>
              dsimp only
              split
              · rfl
              · rw [hvol]
                cases hp : parseFloat (stripCommas (row.getD 8 "")) <;>
                  cases hcp : parseFloat (cleanPercent cpS) <;>
                  cases hch : parseFloat (cleanChange changeS) <;> rfl
  · intro row h
    unfold processRow
    dsimp only
    split
    · rfl
    · cases h10 : row[10]? with
      | none => rfl
      | some changeS =>
          have h11 : row[11]? = none := List.getElem?_eq_none (by omega)
          rw [h11]
  · intro pre post row hrow
    have hup : upClassified (pre ++ row :: post) =
        upClassified (pre ++ post) := by
      simp [upClassified, hrow, RowResult.toUp]
    have hdown : downClassified (pre ++ row :: post) =
        downClassified (pre ++ post) := by
      simp [downClassified, hrow, RowResult.toDown]
    refine ⟨?_, ?_, ?_, ?_, ?_⟩
    · simp [parse_limit_stocks_data, hup]
    · simp [parse_limit_stocks_data, hdown]
    · simp [parse_limit_stocks_data]
      omega
    · simp [parse_limit_stocks_data, hup]
    · simp [parse_limit_stocks_data, hdown]

/-- Witness for C3: the spec's sentinel scenario row (price, change and
change-percent all `"--"`) is skipped, as are a row whose change field
`"--"` fails parsing, a row whose volume field `"abc"` fails parsing,
and an 11-entry row whose index-11 read fails; the sentinel row appears
in no list and raises only `total_scanned`. -/
theorem unparsable_rows_skipped_witness :
    processRow ["9999", "X", "--", "", "", "", "", "", "--", "", "--",
      "--"] = RowResult.skipped ∧
    processRow ["1111", "Y", "10", "", "", "", "", "", "5.00", "", "--",
      "9.90%"] = RowResult.skipped ∧
    processRow ["1111", "Y", "abc", "", "", "", "", "", "5.00", "",
      "0.45", "9.90%"] = RowResult.skipped ∧
    processRow ["0", "1", "2", "3", "4", "5", "6", "7", "8", "9",
      "10"] = RowResult.skipped ∧
    (parse_limit_stocks_data [["9999", "X", "--", "", "", "", "", "",
        "--", "", "--", "--"]]).limit_up =
      (parse_limit_stocks_data []).limit_up ∧
    (parse_limit_stocks_data [["9999", "X", "--", "", "", "", "", "",
        "--", "", "--", "--"]]).limit_down =
      (parse_limit_stocks_data []).limit_down ∧
    (parse_limit_stocks_data [["9999", "X", "--", "", "", "", "", "",
        "--", "", "--", "--"]]).scan_summary.total_scanned =
      (parse_limit_stocks_data []).scan_summary.total_scanned + 1 :=
  ⟨unparsable_rows_skipped.1
      ["9999", "X", "--", "", "", "", "", "", "--", "", "--", "--"] "--"
      (by decide) (by decide),
   unparsable_rows_skipped.2.2.2.1
      ["1111", "Y", "10", "", "", "", "", "", "5.00", "", "--", "9.90%"]
      "--" (by decide) (by decide),
   unparsable_rows_skipped.2.2.2.2.1
      ["1111", "Y", "abc", "", "", "", "", "", "5.00", "", "0.45",
        "9.90%"] (by decide),
   unparsable_rows_skipped.2.2.2.2.2.1
      ["0", "1", "2", "3", "4", "5", "6", "7", "8", "9", "10"]
      (by decide),
   (unparsable_rows_skipped.2.2.2.2.2.2 [] []
      ["9999", "X", "--", "", "", "", "", "", "--", "", "--", "--"]
      (unparsable_rows_skipped.1
        ["9999", "X", "--", "", "", "", "", "", "--", "", "--", "--"] "--"
        (by decide) (by decide))).1,
   (unparsable_rows_skipped.2.2.2.2.2.2 [] []
      ["9999", "X", "--", "", "", "", "", "", "--", "", "--", "--"]
      (unparsable_rows_skipped.1
        ["9999", "X", "--", "", "", "", "", "", "--", "", "--", "--"] "--"
        (by decide) (by decide))).2.1,
   (unparsable_rows_skipped.2.2.2.2.2.2 [] []
      ["9999", "X", "--", "", "", "", "", "", "--", "", "--", "--"]
      (unparsable_rows_skipped.1
        ["9999", "X", "--", "", "", "", "", "", "--", "", "--", "--"] "--"
        (by decide) (by decide))).2.2.1⟩

/-- Witness for C10: 21 identical up-limit rows make `limit_up_found`
exceed 20 while `limit_up` is truncated to 20 entries. -/
theorem scan_counts_before_truncation_witness :
    20 < (parse_limit_stocks_data (List.replicate 21
        ["1101", "台泥", "1000", "", "", "", "", "", "9.90", "", "0.89",
          "9.90%"])).scan_summary.limit_up_found ∧
    (parse_limit_stocks_data (List.replicate 21
        ["1101", "台泥", "1000", "", "", "", "", "", "9.90", "", "0.89",
          "9.90%"])).limit_up.length = 20 :=
  (scan_counts_before_truncation _).2.2.2.2.1 (by with_unfolding_all decide)

/-- Witness for C8 on a Saturday (absolute day 5 of the Monday-based
week). -/
theorem weekend_market_status_witness :
    (get_market_status ⟨5, 10, 0⟩).is_open = false ∧
    (get_market_status ⟨5, 10, 0⟩).trading_day = false ∧
    (get_market_status ⟨5, 10, 0⟩).next_open =
      some ⟨5 + (7 - 5 % 7), 13, 30⟩ ∧
    (5 + (7 - 5 % 7)) % 7 = 0 ∧
    5 < 5 + (7 - 5 % 7) ∧
    5 + (7 - 5 % 7) ≤ 5 + 7 :=
  weekend_market_status ⟨5, 10, 0⟩ (by norm_num)
